import Mathlib

/-!
Verification development for the railgun_mcp repository.

The development shallowly embeds the parts of the source that the checked
properties concern:

* `src/railgun_mcp/models.py` — the `Config` class (configuration loader):
  environment variables, the optional `~/.railgun/config.json` file, and the
  merge performed in `Config.__init__`.
* `src/railgun_mcp/server.py` — the `RailgunAPIClient` status-code dispatch in
  `get`/`post`, the `aiohttp` session lifecycle of `__aenter__`/`__aexit__`/
  `cleanup_api_client`, and the MCP tool handlers (modelled as computations in
  an effect monad that records the backend calls a handler issues and whose
  exceptions are caught by the `try`/`except` wrapper each handler uses).

Python dynamic values are embedded as `PyVal`; Python dicts are embedded as
insertion-ordered association lists, matching CPython dict semantics for the
operations used by the source (lookup, `get`, item assignment, `update`).
Python exceptions are embedded as `Except String`; the string is the exception
message (`str(e)`), whose exact text is kept close to CPython but is not
load-bearing in any theorem below.
-/

/-- Embedded Python value: the subset of Python values the source manipulates
(JSON-shaped data plus `None`).  Floats do not occur in the embedded code
paths; the two floating-point conversions inside `just_send_money` are
abstracted behind oracles in `Sys` below. -/
inductive PyVal where
  | none
  | bool (b : Bool)
  | int (n : Int)
  | str (s : String)
  | list (xs : List PyVal)
  | dict (kvs : List (String × PyVal))
deriving Repr

/-- Python truthiness (`bool(v)`) for the embedded values. -/
def PyVal.truthy : PyVal → Bool
  | .none => false
  | .bool b => b
  | .int n => n != 0
  | .str s => !s.isEmpty
  | .list xs => !xs.isEmpty
  | .dict kvs => !kvs.isEmpty

/-- `Optional[str]` arguments and `os.getenv` results as embedded values. -/
def pyOfOption : Option String → PyVal
  | Option.none => .none
  | Option.some s => .str s

/-- Python `a or b` (returns `a` when truthy, otherwise `b`). -/
def pyOr (a b : PyVal) : PyVal := if a.truthy then a else b

/-- First-match lookup in an insertion-ordered dict. -/
def dictLookup : List (String × PyVal) → String → Option PyVal
  | [], _ => Option.none
  | (k, v) :: rest, key => if k == key then Option.some v else dictLookup rest key

/-- Python `d[k] = v`: overwrite in place (keeping the key position) or append. -/
def dictSet (d : List (String × PyVal)) (k : String) (v : PyVal) : List (String × PyVal) :=
  if d.any (fun p => p.1 == k) then d.map (fun p => if p.1 == k then (k, v) else p)
  else d ++ [(k, v)]

/-- Python `d.update(other)` where `other` is a dict: item assignment for each
pair of `other` in order. -/
def dictUpdateList (d : List (String × PyVal)) (upd : List (String × PyVal)) :
    List (String × PyVal) :=
  upd.foldl (fun acc p => dictSet acc p.1 p.2) d

/-- Python `d.update(arg)` for an arbitrary argument.  A mapping argument
updates; every non-mapping argument reaching `update` in the embedded code
paths raises `TypeError`/`ValueError` in CPython, except the vacuous empty
iterables which are no-ops. -/
def pyDictUpdate (d : List (String × PyVal)) (arg : PyVal) :
    Except String (List (String × PyVal)) :=
  match arg with
  | .dict kvs => .ok (dictUpdateList d kvs)
  | .str s => if s.isEmpty then .ok d
              else .error "ValueError: dictionary update sequence element 0 has length 1; 2 is required"
  | .list xs => if xs.isEmpty then .ok d
                else .error "ValueError: dictionary update sequence is not a sequence of pairs"
  | _ => .error "TypeError: object is not iterable"

/-- Python `v.get(k)` (default `None`); a non-dict receiver raises
`AttributeError`. -/
def pyGet (v : PyVal) (k : String) : Except String PyVal :=
  match v with
  | .dict kvs => .ok ((dictLookup kvs k).getD .none)
  | _ => .error ("AttributeError: object has no attribute get (key " ++ k ++ ")")

/-- Python `v.get(k, d)`. -/
def pyGetD (v : PyVal) (k : String) (d : PyVal) : Except String PyVal :=
  match v with
  | .dict kvs => .ok ((dictLookup kvs k).getD d)
  | _ => .error ("AttributeError: object has no attribute get (key " ++ k ++ ")")

/-- Python `v[k]` for a string key: `KeyError` when absent, `TypeError` when the
receiver is not subscriptable by a string. -/
def pyGetItem (v : PyVal) (k : String) : Except String PyVal :=
  match v with
  | .dict kvs =>
    match dictLookup kvs k with
    | Option.some x => .ok x
    | Option.none => .error ("KeyError: " ++ k)
  | _ => .error ("TypeError: object is not subscriptable (key " ++ k ++ ")")

/-- Split a character list at every occurrence of `sep`, keeping empty pieces
(the semantics of Python `str.split(sep)` for a one-character separator). -/
def splitOnChar (sep : Char) : List Char → List (List Char)
  | [] => [[]]
  | c :: rest =>
    match splitOnChar sep rest with
    | [] => if c = sep then [[], []] else [[c]]
    | h :: t => if c = sep then [] :: h :: t else (c :: h) :: t

/-- Python `s.split(sep)` for a one-character separator.  (Implemented
structurally so that concrete evaluations reduce in the kernel.) -/
def pySplit (s : String) (sep : Char) : List String :=
  (splitOnChar sep s.data).map (fun cs => String.mk cs)

/-- Whether `needle` occurs at the head of `hay`. -/
def matchesHere : List Char → List Char → Bool
  | [], _ => true
  | _ :: _, [] => false
  | a :: as, b :: bs => a == b && matchesHere as bs

/-- Whether `needle` occurs anywhere in `hay`. -/
def occursIn (needle : List Char) : List Char → Bool
  | [] => matchesHere needle []
  | b :: bs => matchesHere needle (b :: bs) || occursIn needle bs

/-- Python `needle in s` on strings (substring test). -/
def pyInStr (needle s : String) : Bool := occursIn needle.data s.data

/-- Python `key in v` (membership test) for a string `key`: key membership on a
dict, element membership on a list, substring test on a string, `TypeError` on
non-containers. -/
def pyContains (v : PyVal) (key : String) : Except String Bool :=
  match v with
  | .dict kvs => .ok (dictLookup kvs key).isSome
  | .list xs => .ok (xs.any (fun e => match e with | .str s => s == key | _ => false))
  | .str s => .ok (pyInStr key s)
  | _ => .error "TypeError: argument of type is not iterable"

/-- Python `v.items()`: the key/value pairs of a dict in insertion order; a
non-dict receiver raises `AttributeError`. -/
def pyItems (v : PyVal) : Except String (List (String × PyVal)) :=
  match v with
  | .dict kvs => .ok kvs
  | _ => .error "AttributeError: object has no attribute items"

/-- Python `len(v)`. -/
def pyLen (v : PyVal) : Except String Int :=
  match v with
  | .list xs => .ok (Int.ofNat xs.length)
  | .dict kvs => .ok (Int.ofNat kvs.length)
  | .str s => .ok (Int.ofNat s.length)
  | _ => .error "TypeError: object has no len"

/-- Digit-run accumulator for `int(str)`. -/
def parseNatCore : List Char → Nat → Option Nat
  | [], acc => Option.some acc
  | c :: rest, acc =>
    if c.isDigit then parseNatCore rest (acc * 10 + (c.toNat - 48)) else Option.none

/-- Python `int(s)` on a string: optional surrounding whitespace, optional
sign, then a non-empty digit run, else `ValueError`.  (Underscore separators
and non-ASCII digits, which CPython also accepts, are not modelled; no theorem
below depends on them.) -/
def pyIntOfString (s : String) : Except String Int :=
  let core : List Char → Except String Int := fun cs =>
    match cs with
    | [] => .error ("ValueError: invalid literal for int with base 10: " ++ s)
    | _ =>
      match parseNatCore cs 0 with
      | Option.some n => .ok (Int.ofNat n)
      | Option.none => .error ("ValueError: invalid literal for int with base 10: " ++ s)
  match s.trim.data with
  | [] => .error ("ValueError: invalid literal for int with base 10: " ++ s)
  | c :: rest =>
    if c = '-' then
      match core rest with
      | .ok n => .ok (-n)
      | .error e => .error e
    else if c = '+' then core rest
    else core (c :: rest)

/-- Python `int(v)` on an embedded value. -/
def pyIntOf (v : PyVal) : Except String Int :=
  match v with
  | .int n => .ok n
  | .bool b => .ok (if b then 1 else 0)
  | .str s => pyIntOfString s
  | _ => .error "TypeError: int argument must be a string or a number"

/-! ## Configuration loader (`src/railgun_mcp/models.py`, class `Config`) -/

/-- The process environment: an association list read by `os.getenv`. -/
abbrev Env := List (String × String)

/-- `os.getenv(name)`. -/
def getenv (env : Env) (name : String) : Option String :=
  List.lookup name env

/-- `os.getenv(name, default)`. -/
def getenvD (env : Env) (name : String) (d : String) : String :=
  (getenv env name).getD d

/-- State of `~/.railgun/config.json` as `Config.__init__` observes it:
absent (`config_path.exists()` is false), unreadable (`open` raises),
malformed (`json.load` raises), or parsed into a JSON value. -/
inductive FileState where
  | absent
  | unreadable
  | malformed
  | parsed (data : PyVal)

/-- The `Config` object: one field per attribute assigned in
`Config.__init__`. -/
structure Config where
  private_key : PyVal
  wallet_password : PyVal
  rpc_endpoints : List (String × PyVal)
  railgun_contracts : List (String × PyVal)
  chain_ids : List (String × PyVal)
deriving Repr

/-- `self.x = self.x or config_data.get(key)`: short-circuits without touching
`config_data` when the current value is truthy. -/
def orFile (cur : PyVal) (data : PyVal) (key : String) : Except String PyVal :=
  if cur.truthy then .ok cur else pyGet data key

/-- The `for network, contracts in config_data["railgun_contracts"].items()`
loop.  Mutations performed before an exception persist (the `except` clause of
`Config.__init__` swallows the exception); the optional string reports the
exception that aborted the loop, if any. -/
def contractsMerge : List (String × PyVal) → List (String × PyVal) →
    List (String × PyVal) × Option String
  | rc, [] => (rc, Option.none)
  | rc, (network, contracts) :: rest =>
    match dictLookup rc network with
    | Option.some (.dict inner) =>
      match pyDictUpdate inner contracts with
      | .ok newInner => contractsMerge (dictSet rc network (.dict newInner)) rest
      | .error e => (rc, Option.some e)
    | Option.some _ => (rc, Option.some "AttributeError: object has no attribute update")
    | Option.none => contractsMerge (dictSet rc network contracts) rest

/-- The body of the `try` block of `Config.__init__` (lines 139-158 of
`models.py`), statement by statement.  An exception at any point aborts the
merge; the state reached so far is kept, because the surrounding `except`
clause only logs. -/
def Config.mergeConfigData (c : Config) (data : PyVal) : Config :=
  match orFile c.private_key data "private_key" with
  | .error _ => c
  | .ok pk =>
    let c1 : Config := { c with private_key := pk }
    match orFile c1.wallet_password data "wallet_password" with
    | .error _ => c1
    | .ok wp =>
      let c2 : Config := { c1 with wallet_password := wp }
      match pyGetD data "rpc_endpoints" (.dict []) with
      | .error _ => c2
      | .ok rpcArg =>
        match pyDictUpdate c2.rpc_endpoints rpcArg with
        | .error _ => c2
        | .ok newRpc =>
          let c3 : Config := { c2 with rpc_endpoints := newRpc }
          match pyContains data "railgun_contracts" with
          | .error _ => c3
          | .ok b =>
            if b then
              match pyGetItem data "railgun_contracts" with
              | .error _ => c3
              | .ok rcVal =>
                match pyItems rcVal with
                | .error _ => c3
                | .ok items =>
                  { c3 with railgun_contracts := (contractsMerge c3.railgun_contracts items).1 }
            else c3

/-- `Config.__init__`: build the attribute values from the environment and the
built-in defaults, then merge the config file (if present and readable) with
all exceptions swallowed. -/
def Config.init (env : Env) (file : FileState) : Config :=
  let base : Config := {
    private_key := pyOfOption (getenv env "RAILGUN_PRIVATE_KEY")
    wallet_password := pyOfOption (getenv env "RAILGUN_WALLET_PASSWORD")
    rpc_endpoints := [
      ("ethereum", .str (getenvD env "ETHEREUM_RPC_URL" "https://eth-mainnet.g.alchemy.com/v2/your-api-key")),
      ("arbitrum", .str (getenvD env "ARBITRUM_RPC_URL" "https://arb-mainnet.g.alchemy.com/v2/your-api-key")),
      ("polygon", .str (getenvD env "POLYGON_RPC_URL" "https://polygon-mainnet.g.alchemy.com/v2/your-api-key")),
      ("bsc", .str (getenvD env "BSC_RPC_URL" "https://bsc-dataseed.binance.org/"))]
    railgun_contracts := [
      ("ethereum", .dict [
        ("proxy", .str "0xFA7093CDD9EE6932B4eb2c9e1cde7CE00B1FA4b9"),
        ("poseidon", .str "0x3e3a3D69dc66bA10737F531ed088954a9EC89d97"),
        ("verifier", .str "0x87C7fd0635Fb4E2FE5A3b40d5a57E96cE01a0B7a")]),
      ("polygon", .dict [
        ("proxy", .str "0x19b620929f97b7b990801496c3b361ca5def8c71"),
        ("poseidon", .str "0x3e3a3D69dc66bA10737F531ed088954a9EC89d97"),
        ("verifier", .str "0x87C7fd0635Fb4E2FE5A3b40d5a57E96cE01a0B7a")]),
      ("bsc", .dict [
        ("proxy", .str "0x590162bf4b50f6576a459b75309ee21d92178a10"),
        ("poseidon", .str "0x3e3a3D69dc66bA10737F531ed088954a9EC89d97"),
        ("verifier", .str "0x87C7fd0635Fb4E2FE5A3b40d5a57E96cE01a0B7a")])]
    chain_ids := [
      ("ethereum", .int 1), ("polygon", .int 137), ("bsc", .int 56), ("arbitrum", .int 42161)] }
  match file with
  | .absent => base
  | .unreadable => base
  | .malformed => base
  | .parsed data => Config.mergeConfigData base data

/-- `Config.get_rpc_url`: `self.rpc_endpoints.get(network)`. -/
def Config.get_rpc_url (c : Config) (network : String) : PyVal :=
  (dictLookup c.rpc_endpoints network).getD .none

/-- `Config.get_chain_id`: `self.chain_ids.get(network, 1)`. -/
def Config.get_chain_id (c : Config) (network : String) : PyVal :=
  (dictLookup c.chain_ids network).getD (.int 1)

/-! ## API client status dispatch (`server.py`, `RailgunAPIClient.get`/`post`) -/

/-- An HTTP response as the client observes it: the status code, the result of
`response.json()` (which may itself raise on an unparseable body), and the
result of `response.text()`. -/
structure HttpResponse where
  status : Nat
  jsonBody : Except String PyVal
  textBody : String

/-- `RailgunAPIClient.get` response handling (lines 49-58 of `server.py`):
return the parsed JSON body when `response.status == 200`, otherwise raise
with the status code and the raw body text. -/
def RailgunAPIClient.get (resp : HttpResponse) : Except String PyVal :=
  if resp.status = 200 then resp.jsonBody
  else .error ("API request failed: " ++ toString resp.status ++ " - " ++ resp.textBody)

/-- `RailgunAPIClient.post` response handling (lines 60-69 of `server.py`):
return the parsed JSON body when `response.status in (200, 201)`, otherwise
raise with the status code and the raw body text. -/
def RailgunAPIClient.post (resp : HttpResponse) : Except String PyVal :=
  if resp.status = 200 ∨ resp.status = 201 then resp.jsonBody
  else .error ("API request failed: " ++ toString resp.status ++ " - " ++ resp.textBody)

/-! ## Session lifecycle (`server.py`, `RailgunAPIClient.__aenter__`/`__aexit__`,
`cleanup_api_client`) -/

/-- A live `aiohttp.ClientSession`: its identity and the Authorization header
it was created with. -/
structure Session where
  id : Nat
  authHeader : String
deriving Repr, DecidableEq

/-- The `RailgunAPIClient` object state: constructor arguments plus
`self.session` (`None` until `__aenter__` runs; never reset to `None`
afterwards). -/
structure RailgunClient where
  api_key : String
  api_url : String
  session : Option Nat
deriving Repr, DecidableEq

/-- The ambient session world: which sessions have been created and not yet
closed. -/
structure World where
  nextId : Nat
  openSessions : List Session
deriving Repr, DecidableEq

/-- `__aenter__` (lines 39-43): unconditionally create a fresh
`aiohttp.ClientSession` with the bearer-token header and overwrite
`self.session` with it.  A previously stored session is not closed. -/
def aenter (c : RailgunClient) (w : World) : RailgunClient × World :=
  ({ c with session := Option.some w.nextId },
   { nextId := w.nextId + 1,
     openSessions := w.openSessions ++ [⟨w.nextId, "Bearer " ++ c.api_key⟩] })

/-- Closing an `aiohttp` session: removes it from the open set; closing an
already-closed session is a no-op (aiohttp `close` is itself idempotent). -/
def sessionClose (w : World) (i : Nat) : World :=
  { w with openSessions := w.openSessions.filter (fun s => s.id ≠ i) }

/-- `__aexit__` (lines 45-47): `if self.session: await self.session.close()`.
`self.session` keeps its value, so the client object is unchanged. -/
def aexit (c : RailgunClient) (w : World) : World :=
  match c.session with
  | Option.none => w
  | Option.some i => sessionClose w i

/-- `cleanup_api_client` (lines 91-96): if the global client is set, run its
`__aexit__` and reset the global to `None`; otherwise do nothing. -/
def cleanup_api_client (g : Option RailgunClient) (w : World) :
    Option RailgunClient × World :=
  match g with
  | Option.none => (Option.none, w)
  | Option.some c => (Option.none, aexit c w)

/-! ## Tool-handler effect model (`server.py` tool handlers)

Each handler body is a computation that may call the backend through the
shared client and may raise; the `try`/`except` wrapper converts any raised
exception into the uniform failure dictionary.  `Sys` packages the
environment a handler body runs against: whether `get_api_client()` succeeds,
the backend response to each request, and oracles for the two floating-point
conversions in `just_send_money` (IEEE-754 arithmetic is not modelled; no
theorem depends on their values). -/

/-- One observable interaction with the shared API client. -/
inductive Call where
  | acquireClient
  | get (endpoint : String) (params : PyVal)
  | post (endpoint : String) (body : PyVal)
deriving Repr

/-- The handler environment. `clientAvailable` is whether `get_api_client()`
returns a client rather than raising; `respond` is the backend behaviour
(a raised exception or a decoded JSON response per request); `amountToWei`
models `int(float(amount) * 10 ** decimals)` (an `Except` because `float()`
raises `ValueError` on a bad literal); `floatDisplay` models the decimal
rendering `float(shield_amount) / 10 ** decimals` inside an f-string. -/
structure Sys where
  clientAvailable : Bool
  respond : Call → Except String PyVal
  amountToWei : String → Nat → Except String Int
  floatDisplay : Int → Nat → String

/-- A handler-body computation: given the environment, either a value or a
raised exception, together with the list of client interactions performed. -/
def Eff (α : Type) : Type := Sys → Except String α × List Call

def Eff.pure (a : α) : Eff α := fun _ => (.ok a, [])

def Eff.bind (x : Eff α) (f : α → Eff β) : Eff β := fun sys =>
  match x sys with
  | (.ok a, tr) =>
    match f a sys with
    | (r, tr2) => (r, tr ++ tr2)
  | (.error e, tr) => (.error e, tr)

instance : Monad Eff where
  pure := Eff.pure
  bind := Eff.bind

/-- Raise a Python exception. -/
def Eff.fail (e : String) : Eff α := fun _ => (.error e, [])

/-- Lift a pure fallible computation (no client interaction). -/
def liftE (r : Except String α) : Eff α := fun _ => (r, [])

/-- `client = await get_api_client()` (lines 76-88): raises when no client
exists and `config.private_key` is unset. -/
def acquireClient : Eff Unit := fun sys =>
  ((if sys.clientAvailable then Except.ok ()
    else Except.error "⚠️  RAILGUN_PRIVATE_KEY not configured. This server needs a complete rewrite - see ARCHITECTURE_UPDATE.md"),
   [Call.acquireClient])

/-- `await client.get(endpoint, params)`. -/
def clientGet (endpoint : String) (params : PyVal) : Eff PyVal := fun sys =>
  (sys.respond (Call.get endpoint params), [Call.get endpoint params])

/-- `await client.post(endpoint, data)`. -/
def clientPost (endpoint : String) (data : PyVal) : Eff PyVal := fun sys =>
  (sys.respond (Call.post endpoint data), [Call.post endpoint data])

/-- `sys.amountToWei` as a computation. -/
def amountToWeiEff (amount : String) (decimals : Nat) : Eff Int := fun sys =>
  (sys.amountToWei amount decimals, [])

/-- `sys.floatDisplay` as a computation (never raises). -/
def floatDisplayEff (amount : Int) (decimals : Nat) : Eff String := fun sys =>
  (.ok (sys.floatDisplay amount decimals), [])

/-- The uniform failure dictionary `{"success": False, "error": str(e)}`. -/
def failDict (e : String) : PyVal :=
  .dict [("success", .bool false), ("error", .str e)]

/-- The `try`/`except` wrapper around every tool-handler body: a raised
exception becomes the uniform failure dictionary; the recorded client
interactions are kept either way. -/
def runTool (body : Eff PyVal) (sys : Sys) : PyVal × List Call :=
  match body sys with
  | (.ok v, tr) => (v, tr)
  | (.error e, tr) => (failDict e, tr)

/-! ## Tool handlers (`server.py`).  Each `def` below is the body of the
corresponding `@mcp.tool()` coroutine, inside its `try`; `runTool` applies the
`except Exception` clause. -/

/-- `create_wallet` (lines 102-135). -/
def create_wallet (cfg : Config) (network : String) (password : Option String) :
    Eff PyVal := do
  acquireClient
  let wallet_password := pyOr (pyOfOption password) cfg.wallet_password
  if wallet_password.truthy then do
    let response ← clientPost "/wallets/create"
      (.dict [("network", .str network), ("password", wallet_password)])
    let wid ← liftE (pyGetItem response "wallet_id")
    let a0x ← liftE (pyGetItem response "address_0x")
    let a0zk ← liftE (pyGetItem response "address_0zk")
    Eff.pure (.dict [("success", .bool true), ("wallet_id", wid),
      ("address_0x", a0x), ("address_0zk", a0zk), ("network", .str network),
      ("message", .str "Wallet created successfully. Your wallet is encrypted with the provided password.")])
  else
    Eff.pure (failDict "Wallet password required. Set RAILGUN_WALLET_PASSWORD or provide password parameter")

/-- `import_wallet` (lines 138-177). -/
def import_wallet (cfg : Config) (private_key network : String)
    (password : Option String) : Eff PyVal := do
  acquireClient
  let wallet_password := pyOr (pyOfOption password) cfg.wallet_password
  if wallet_password.truthy then do
    let response ← clientPost "/wallets/import"
      (.dict [("private_key", .str private_key), ("network", .str network),
              ("password", wallet_password)])
    let wid ← liftE (pyGetItem response "wallet_id")
    let a0x ← liftE (pyGetItem response "address_0x")
    let a0zk ← liftE (pyGetItem response "address_0zk")
    Eff.pure (.dict [("success", .bool true), ("wallet_id", wid),
      ("address_0x", a0x), ("address_0zk", a0zk), ("network", .str network)])
  else
    Eff.pure (failDict "Wallet password required. Set RAILGUN_WALLET_PASSWORD or provide password parameter")

/-- `list_wallets` (lines 180-195). -/
def list_wallets : Eff PyVal := do
  acquireClient
  let response ← clientGet "/wallets" .none
  let ws ← liftE (pyGetItem response "wallets")
  let n ← liftE (pyLen ws)
  Eff.pure (.dict [("success", .bool true), ("wallets", ws), ("count", .int n)])

/-- Truthiness of an `Optional[str]` parameter (`if x:`). -/
def optTruthy : Option String → Bool
  | Option.none => false
  | Option.some s => !s.isEmpty

/-- `get_balance` (lines 201-228). -/
def get_balance (wallet_id : String) (token_address : Option String)
    (include_private : Bool) : Eff PyVal := do
  acquireClient
  let params0 := [("wallet_id", PyVal.str wallet_id),
                  ("include_private", PyVal.bool include_private)]
  let params := if optTruthy token_address then
      dictSet params0 "token_address" (pyOfOption token_address)
    else params0
  let response ← clientGet "/balances" (.dict params)
  let b ← liftE (pyGetItem response "balances")
  Eff.pure (.dict [("success", .bool true), ("wallet_id", .str wallet_id),
    ("balances", b)])

/-- `get_gas_price` (lines 231-251). -/
def get_gas_price (network : String) : Eff PyVal := do
  acquireClient
  let response ← clientGet ("/gas-price/" ++ network) .none
  let gp ← liftE (pyGetItem response "gas_price")
  let bf ← liftE (pyGet response "base_fee")
  let pf ← liftE (pyGet response "priority_fee")
  Eff.pure (.dict [("success", .bool true), ("network", .str network),
    ("gas_price", gp), ("base_fee", bf), ("priority_fee", pf)])

/-- `shield_tokens` (lines 257-301). -/
def shield_tokens (cfg : Config) (wallet_id token_address amount : String)
    (recipient_0zk_address gas_price : Option String) : Eff PyVal := do
  acquireClient
  let data0 := [("wallet_id", PyVal.str wallet_id),
                ("token_address", PyVal.str token_address),
                ("amount", PyVal.str amount),
                ("password", cfg.wallet_password)]
  let data1 := if optTruthy recipient_0zk_address then
      dictSet data0 "recipient_0zk_address" (pyOfOption recipient_0zk_address)
    else data0
  let data2 := if optTruthy gas_price then
      dictSet data1 "gas_price" (pyOfOption gas_price)
    else data1
  let response ← clientPost "/transactions/shield" (.dict data2)
  let tid ← liftE (pyGetItem response "transaction_id")
  let th ← liftE (pyGetItem response "tx_hash")
  let st ← liftE (pyGetItem response "status")
  let gu ← liftE (pyGet response "gas_used")
  Eff.pure (.dict [("success", .bool true), ("transaction_id", tid),
    ("tx_hash", th), ("status", st), ("gas_used", gu),
    ("message", .str "Shield transaction submitted successfully")])

/-- `unshield_tokens` (lines 304-348). -/
def unshield_tokens (cfg : Config) (wallet_id token_address amount : String)
    (recipient_0x_address gas_price : Option String) : Eff PyVal := do
  acquireClient
  let data0 := [("wallet_id", PyVal.str wallet_id),
                ("token_address", PyVal.str token_address),
                ("amount", PyVal.str amount),
                ("password", cfg.wallet_password)]
  let data1 := if optTruthy recipient_0x_address then
      dictSet data0 "recipient_0x_address" (pyOfOption recipient_0x_address)
    else data0
  let data2 := if optTruthy gas_price then
      dictSet data1 "gas_price" (pyOfOption gas_price)
    else data1
  let response ← clientPost "/transactions/unshield" (.dict data2)
  let tid ← liftE (pyGetItem response "transaction_id")
  let th ← liftE (pyGetItem response "tx_hash")
  let st ← liftE (pyGetItem response "status")
  let gu ← liftE (pyGet response "gas_used")
  Eff.pure (.dict [("success", .bool true), ("transaction_id", tid),
    ("tx_hash", th), ("status", st), ("gas_used", gu),
    ("message", .str "Unshield transaction submitted successfully")])

/-- `private_transfer` (lines 351-398). -/
def private_transfer (cfg : Config)
    (wallet_id token_address amount recipient_0zk_address : String)
    (gas_price memo : Option String) : Eff PyVal := do
  acquireClient
  let data0 := [("wallet_id", PyVal.str wallet_id),
                ("token_address", PyVal.str token_address),
                ("amount", PyVal.str amount),
                ("recipient_0zk_address", PyVal.str recipient_0zk_address),
                ("password", cfg.wallet_password)]
  let data1 := if optTruthy gas_price then
      dictSet data0 "gas_price" (pyOfOption gas_price)
    else data0
  let data2 := if optTruthy memo then dictSet data1 "memo" (pyOfOption memo) else data1
  let response ← clientPost "/transactions/private-transfer" (.dict data2)
  let tid ← liftE (pyGetItem response "transaction_id")
  let th ← liftE (pyGetItem response "tx_hash")
  let st ← liftE (pyGetItem response "status")
  let gu ← liftE (pyGet response "gas_used")
  Eff.pure (.dict [("success", .bool true), ("transaction_id", tid),
    ("tx_hash", th), ("status", st), ("gas_used", gu),
    ("message", .str "Private transfer submitted successfully")])

/-- `get_transaction_status` (lines 401-415). -/
def get_transaction_status (transaction_id : String) : Eff PyVal := do
  acquireClient
  let response ← clientGet ("/transactions/" ++ transaction_id) .none
  let t ← liftE (pyGetItem response "transaction")
  Eff.pure (.dict [("success", .bool true), ("transaction", t)])

/-- `get_transaction_history` (lines 418-451). -/
def get_transaction_history (wallet_id : String) (limit offset : Int)
    (transaction_type : Option String) : Eff PyVal := do
  acquireClient
  let params0 := [("wallet_id", PyVal.str wallet_id), ("limit", PyVal.int limit),
                  ("offset", PyVal.int offset)]
  let params := if optTruthy transaction_type then
      dictSet params0 "type" (pyOfOption transaction_type)
    else params0
  let response ← clientGet "/transactions" (.dict params)
  let txs ← liftE (pyGetItem response "transactions")
  let total ← liftE (pyGetItem response "total")
  Eff.pure (.dict [("success", .bool true), ("transactions", txs),
    ("total", total), ("limit", .int limit), ("offset", .int offset)])

/-- `create_recipe` (lines 457-489).  `steps` is the raw JSON-shaped argument. -/
def create_recipe (name description network : String) (steps : PyVal) : Eff PyVal := do
  acquireClient
  let response ← clientPost "/recipes"
    (.dict [("name", .str name), ("description", .str description),
            ("network", .str network), ("steps", steps)])
  let rid ← liftE (pyGetItem response "recipe_id")
  Eff.pure (.dict [("success", .bool true), ("recipe_id", rid),
    ("message", .str "Recipe created successfully")])

/-- `estimate_recipe_gas` (lines 538-564). -/
def estimate_recipe_gas (recipe_id : String) (input_amounts : PyVal) : Eff PyVal := do
  acquireClient
  let response ← clientPost "/recipes/estimate-gas"
    (.dict [("recipe_id", .str recipe_id), ("input_amounts", input_amounts)])
  let eg ← liftE (pyGetItem response "estimated_gas")
  let gb ← liftE (pyGetD response "gas_breakdown" (.dict []))
  let ecw ← liftE (pyGet response "estimated_cost_wei")
  Eff.pure (.dict [("success", .bool true), ("estimated_gas", eg),
    ("gas_breakdown", gb), ("estimated_cost_wei", ecw)])

/-- `create_swap_recipe` (lines 567-601). -/
def create_swap_recipe (network sell_token buy_token dex : String) : Eff PyVal := do
  acquireClient
  let response ← clientPost "/recipes/templates/swap"
    (.dict [("network", .str network), ("sell_token", .str sell_token),
            ("buy_token", .str buy_token), ("dex", .str dex)])
  let rid ← liftE (pyGetItem response "recipe_id")
  let rname ← liftE (pyGetItem response "recipe_name")
  let steps ← liftE (pyGetItem response "steps")
  Eff.pure (.dict [("success", .bool true), ("recipe_id", rid),
    ("recipe_name", rname), ("steps", steps),
    ("message", .str "Swap recipe created successfully")])

/-- `get_relayers` (lines 607-626). -/
def get_relayers (network : String) : Eff PyVal := do
  acquireClient
  let response ← clientGet ("/relayers/" ++ network) .none
  let rs ← liftE (pyGetItem response "relayers")
  let n ← liftE (pyLen rs)
  Eff.pure (.dict [("success", .bool true), ("network", .str network),
    ("relayers", rs), ("count", .int n)])

/-- `submit_to_relayer` (lines 629-661). -/
def submit_to_relayer (transaction_data relayer_id priority : String) : Eff PyVal := do
  acquireClient
  let response ← clientPost "/relayers/submit"
    (.dict [("transaction_data", .str transaction_data),
            ("relayer_id", .str relayer_id), ("priority", .str priority)])
  let rtid ← liftE (pyGetItem response "relayer_transaction_id")
  let et ← liftE (pyGet response "estimated_time")
  let fee ← liftE (pyGet response "fee")
  Eff.pure (.dict [("success", .bool true), ("relayer_transaction_id", rtid),
    ("estimated_time", et), ("fee", fee),
    ("message", .str "Transaction submitted to relayer successfully")])

/-- The `for i in range(count)` loop of `create_wallet_batch` (lines 687-703),
collecting the `wallets_created` entries. -/
def batchLoop (network password_prefix : String) (use_unique_passwords : Bool) :
    List Nat → Eff (List PyVal)
  | [] => Eff.pure []
  | i :: rest => do
    let password := if use_unique_passwords then
        password_prefix ++ "_" ++ toString i
      else password_prefix
    let response ← clientPost "/wallets/create"
      (.dict [("network", .str network), ("password", .str password)])
    let wid ← liftE (pyGetItem response "wallet_id")
    let a0x ← liftE (pyGetItem response "address_0x")
    let a0zk ← liftE (pyGetItem response "address_0zk")
    let others ← batchLoop network password_prefix use_unique_passwords rest
    Eff.pure (PyVal.dict [("wallet_id", wid), ("address_0x", a0x),
      ("address_0zk", a0zk), ("index", .int i)] :: others)

/-- `create_wallet_batch` (lines 667-713).  The `count > 10` check precedes
`get_api_client()`; `range(count)` of a non-positive count is empty. -/
def create_wallet_batch (count : Int) (network password_prefix : String)
    (use_unique_passwords : Bool) : Eff PyVal := do
  if count > 10 then
    Eff.pure (failDict "Maximum 10 wallets per batch")
  else do
    acquireClient
    let ws ← batchLoop network password_prefix use_unique_passwords
      (List.range count.toNat)
    Eff.pure (.dict [("success", .bool true), ("wallets_created", .list ws),
      ("count", .int ws.length), ("network", .str network),
      ("message", .str ("Created " ++ toString count ++ " wallets successfully"))])

/-- The equal-split computation of `distribute_tokens` (lines 740-742):
`amount_per_wallet = str(int(total_amount) // len(destination_wallet_ids))`
then `amounts = [amount_per_wallet] * len(destination_wallet_ids)`.
Python `//` is floor division (`Int.fdiv`). -/
def equal_distribution (total : Int) (n : Nat) : List Int :=
  List.replicate n (Int.fdiv total (n : Int))

/-- Python `amounts[i]` where `amounts: Optional[List[str]]`. -/
def pyIndex (amounts : Option (List String)) (i : Nat) : Except String String :=
  match amounts with
  | Option.none => .error "TypeError: NoneType object is not subscriptable"
  | Option.some xs =>
    match xs[i]? with
    | Option.some a => .ok a
    | Option.none => .error "IndexError: list index out of range"

/-- The first loop of `distribute_tokens` (lines 750-755): resolve each
destination wallet id to its 0zk address. -/
def destLoop : List String → Eff (List (String × PyVal))
  | [] => Eff.pure []
  | wid :: rest => do
    let wallet_info ← clientGet ("/wallets/" ++ wid) .none
    let a ← liftE (pyGetItem wallet_info "address_0zk")
    let others ← destLoop rest
    Eff.pure ((wid, a) :: others)

/-- The second loop of `distribute_tokens` (lines 758-777): one
private-transfer POST per destination, collecting the `transfers` entries. -/
def transferLoop (cfg : Config) (source_wallet_id token_address : String)
    (amounts : Option (List String)) :
    Nat → List (String × PyVal) → Eff (List PyVal)
  | _, [] => Eff.pure []
  | i, (wid, a0zk) :: rest => do
    let amt ← liftE (pyIndex amounts i)
    let response ← clientPost "/transactions/private-transfer"
      (.dict [("wallet_id", .str source_wallet_id),
              ("token_address", .str token_address),
              ("amount", .str amt),
              ("recipient_0zk_address", a0zk),
              ("password", cfg.wallet_password)])
    let th ← liftE (pyGetItem response "tx_hash")
    let st ← liftE (pyGetItem response "status")
    let others ← transferLoop cfg source_wallet_id token_address amounts (i + 1) rest
    Eff.pure (PyVal.dict [("to_wallet", .str wid), ("amount", .str amt),
      ("tx_hash", th), ("status", st)] :: others)

/-- The destination-resolution and transfer phase of `distribute_tokens`
(lines 749-785): both loops plus the success dictionary. -/
def distributeTransfers (cfg : Config)
    (source_wallet_id token_address total_amount : String)
    (destination_wallet_ids : List String) (amounts : Option (List String)) :
    Eff PyVal := do
  let dests ← destLoop destination_wallet_ids
  let transfers ← transferLoop cfg source_wallet_id token_address amounts 0 dests
  Eff.pure (.dict [("success", .bool true),
    ("source_wallet", .str source_wallet_id), ("transfers", .list transfers),
    ("total_distributed", .str total_amount),
    ("message", .str ("Distributed tokens to " ++ toString transfers.length ++ " wallets"))])

/-- `distribute_tokens` (lines 716-787).  In the `"equal"` branch the amounts
are `equal_distribution` stringified; dividing by an empty destination list
raises `ZeroDivisionError`; the `"custom"` branch without amounts returns the
dedicated failure dictionary; any other `distribution_type` proceeds with the
given amounts unchanged (Python leaves `amounts` as passed). -/
def distribute_tokens (cfg : Config) (source_wallet_id token_address total_amount : String)
    (destination_wallet_ids : List String) (distribution_type : String)
    (amounts0 : Option (List String)) : Eff PyVal := do
  acquireClient
  if distribution_type == "equal" then do
    let t ← liftE (pyIntOfString total_amount)
    if destination_wallet_ids.length = 0 then
      Eff.fail "ZeroDivisionError: integer division or modulo by zero"
    else
      distributeTransfers cfg source_wallet_id token_address total_amount
        destination_wallet_ids
        (Option.some ((equal_distribution t destination_wallet_ids.length).map
          (fun a => toString a)))
  else if distribution_type == "custom" && !(match amounts0 with
      | Option.none => false
      | Option.some xs => !xs.isEmpty) then
    Eff.pure (failDict "Custom amounts required for custom distribution")
  else
    distributeTransfers cfg source_wallet_id token_address total_amount
      destination_wallet_ids amounts0

/-- `mix_tokens` (lines 790-820): acquires the client, performs no backend
request, and returns the fixed success shape. -/
def mix_tokens (wallet_ids : List String) (token_address : String)
    (mixing_rounds delay_seconds : Int) : Eff PyVal := do
  acquireClient
  Eff.pure (.dict [("success", .bool true),
    ("message", .str "Token mixing initiated"),
    ("wallets", .int wallet_ids.length),
    ("rounds", .int mixing_rounds),
    ("estimated_time", .int (mixing_rounds * delay_seconds * wallet_ids.length))])

/-- The token-decimals table of `just_send_money` (line 1029). -/
def decimalsMap : List (String × Nat) :=
  [("USDC", 6), ("USDT", 6), ("DAI", 18), ("ETH", 18)]

/-- `if " " in amount: amount, token = amount.split(" ")` (lines 1025-1026):
unpacking fails unless the split yields exactly two parts. -/
def parseAmountToken (amount token : String) : Except String (String × String) :=
  if amount.data.contains ' ' then
    match pySplit amount ' ' with
    | [a, t] => .ok (a, t)
    | _ => .error "ValueError: too many values to unpack (expected 2)"
  else .ok (amount, token)

/-- `decimals[token]` (strict lookup, line 1052): `KeyError` when absent. -/
def strictDecimals (token : String) : Except String Nat :=
  match List.lookup token decimalsMap with
  | Option.some d => .ok d
  | Option.none => .error ("KeyError: " ++ token)

/-- `just_send_money` (lines 1005-1081).  In the `keep_private=False` branch
the source never assigns `transfer_response`, yet the returned dictionary
reads `transfer_response.get("tx_hash")`, so building the return value raises
`UnboundLocalError` (a `NameError`); the embedding raises at that point. -/
def just_send_money (cfg : Config) (wallet_id toAddr amount0 token0 : String)
    (keep_private : Bool) : Eff PyVal := do
  acquireClient
  let p ← liftE (parseAmountToken amount0 token0)
  let amount := p.1
  let token := p.2
  let decimals := (List.lookup token decimalsMap).getD 18
  let amount_wei ← amountToWeiEff amount decimals
  if keep_private then do
    let balances ← clientGet "/balances" (.dict [("wallet_id", .str wallet_id)])
    let bb ← liftE (pyGetItem balances "balances")
    let bpriv ← liftE (pyGetItem bb "private")
    let private_balance ← liftE (pyGetD bpriv token (.str "0"))
    let pb ← liftE (pyIntOf private_balance)
    let steps1 ←
      if pb < amount_wei then do
        let shield_amount := amount_wei - pb
        let _ ← clientPost "/transactions/shield"
          (.dict [("wallet_id", .str wallet_id), ("token_address", .str "0x..."),
                  ("amount", .str (toString shield_amount)),
                  ("password", cfg.wallet_password)])
        let d ← liftE (strictDecimals token)
        let shown ← floatDisplayEff shield_amount d
        Eff.pure [PyVal.str ("Shielded " ++ shown ++ " " ++ token)]
      else Eff.pure []
    let transfer_response ← clientPost "/transactions/private-transfer"
      (.dict [("wallet_id", .str wallet_id), ("token_address", .str "0x..."),
              ("amount", .str (toString amount_wei)),
              ("recipient_0zk_address", .str toAddr),
              ("password", cfg.wallet_password)])
    let steps := steps1 ++ [PyVal.str ("Sent " ++ amount ++ " " ++ token ++ " privately")]
    let th ← liftE (pyGet transfer_response "tx_hash")
    Eff.pure (.dict [("success", .bool true),
      ("message", .str ("✅ Sent " ++ amount ++ " " ++ token ++ " to " ++ toAddr.take 8 ++ "...!")),
      ("steps_taken", .list steps), ("tx_hash", th),
      ("privacy_level", .str "🔒 Fully Private"),
      ("estimated_time", .str "2-5 minutes")])
  else
    Eff.fail "NameError: local variable transfer_response referenced before assignment"

/-- `verify_proof` (lines 1337-1357). -/
def verify_proof (proof_data : String) : Eff PyVal := do
  acquireClient
  let response ← clientPost "/proofs/verify" (.dict [("proof_data", .str proof_data)])
  let valid ← liftE (pyGetItem response "valid")
  let pt ← liftE (pyGet response "proof_type")
  let va ← liftE (pyGet response "verified_at")
  Eff.pure (.dict [("success", .bool true), ("valid", valid),
    ("proof_type", pt), ("verified_at", va)])

/-- `get_supported_tokens` (lines 1360-1379). -/
def get_supported_tokens (network : String) : Eff PyVal := do
  acquireClient
  let response ← clientGet ("/tokens/" ++ network) .none
  let toks ← liftE (pyGetItem response "tokens")
  let n ← liftE (pyLen toks)
  Eff.pure (.dict [("success", .bool true), ("network", .str network),
    ("tokens", toks), ("count", .int n)])

/-- One entry of the `check_config` rpc-endpoints display comprehension
(lines 1393-1396): `v.split("/")[2] if "/" in v else v`.  For a string with a
single slash the split has only two elements and the index raises
`IndexError`. -/
def rpcDisplayOne (v : PyVal) : Except String PyVal :=
  match v with
  | .str s =>
    if s.data.contains '/' then
      match (pySplit s '/')[2]? with
      | Option.some part => .ok (.str part)
      | Option.none => .error "IndexError: list index out of range"
    else .ok (.str s)
  | .list xs =>
    if xs.any (fun e => match e with | .str t => t == "/" | _ => false) then
      .error "AttributeError: list object has no attribute split"
    else .ok (.list xs)
  | .dict kvs =>
    if kvs.any (fun p => p.1 == "/") then
      .error "AttributeError: dict object has no attribute split"
    else .ok (.dict kvs)
  | _ => .error "TypeError: argument of type is not iterable"

/-- The full rpc-endpoints display comprehension of `check_config`: the first
entry that raises aborts the comprehension. -/
def rpcDisplayMap : List (String × PyVal) → Except String (List (String × PyVal))
  | [] => .ok []
  | (k, v) :: rest =>
    match rpcDisplayOne v with
    | .error e => .error e
    | .ok v2 =>
      match rpcDisplayMap rest with
      | .error e => .error e
      | .ok rest2 => .ok ((k, v2) :: rest2)

/-- `check_config` (lines 1382-1401): the only tool handler with no
`try`/`except` wrapper, so an exception raised while building the result
escapes (hence the `Except` result type). -/
def check_config (cfg : Config) : Except String PyVal :=
  match rpcDisplayMap cfg.rpc_endpoints with
  | .error e => .error e
  | .ok disp => .ok (.dict [("success", .bool true),
    ("config", .dict [
      ("private_key_set", .bool cfg.private_key.truthy),
      ("wallet_password_set", .bool cfg.wallet_password.truthy),
      ("railgun_contracts", .dict cfg.railgun_contracts),
      ("rpc_endpoints", .dict disp)]),
    ("warning", .str "⚠️  This MCP server currently has fake API calls and needs a complete rewrite to work with the real RAILGUN protocol."),
    ("required_fix", .str "See ARCHITECTURE_UPDATE.md for implementation details"),
    ("message", .str "Use RAILGUN_PRIVATE_KEY environment variable or ~/.railgun/config.json to configure")])

/-! ## The embedded tool surface -/

/-- One invocation of an embedded tool handler with its arguments.  The
handlers whose bodies compute with IEEE-754 floats
(`execute_recipe`, `get_wallet_analytics`, `can_i_afford_this`,
`why_is_this_so_expensive`, `where_are_my_tokens`, `fix_stuck_transaction`,
`optimize_my_privacy`, `emergency_exit`) are outside the embedding;
`check_config` is embedded separately because it has no `try`/`except`
wrapper. -/
inductive ToolCall where
  | create_wallet (network : String) (password : Option String)
  | import_wallet (private_key network : String) (password : Option String)
  | list_wallets
  | get_balance (wallet_id : String) (token_address : Option String) (include_private : Bool)
  | get_gas_price (network : String)
  | shield_tokens (wallet_id token_address amount : String) (recipient gas : Option String)
  | unshield_tokens (wallet_id token_address amount : String) (recipient gas : Option String)
  | private_transfer (wallet_id token_address amount recipient : String) (gas memo : Option String)
  | get_transaction_status (transaction_id : String)
  | get_transaction_history (wallet_id : String) (limit offset : Int) (transaction_type : Option String)
  | create_recipe (name description network : String) (steps : PyVal)
  | estimate_recipe_gas (recipe_id : String) (input_amounts : PyVal)
  | create_swap_recipe (network sell_token buy_token dex : String)
  | get_relayers (network : String)
  | submit_to_relayer (transaction_data relayer_id priority : String)
  | create_wallet_batch (count : Int) (network password_prefix : String) (use_unique_passwords : Bool)
  | distribute_tokens (source_wallet_id token_address total_amount : String)
      (destination_wallet_ids : List String) (distribution_type : String)
      (amounts : Option (List String))
  | mix_tokens (wallet_ids : List String) (token_address : String) (mixing_rounds delay_seconds : Int)
  | just_send_money (wallet_id toAddr amount token : String) (keep_private : Bool)
  | verify_proof (proof_data : String)
  | get_supported_tokens (network : String)

/-- Dispatch an embedded tool invocation to its handler body. -/
def toolBody (cfg : Config) : ToolCall → Eff PyVal
  | .create_wallet n p => create_wallet cfg n p
  | .import_wallet pk n p => import_wallet cfg pk n p
  | .list_wallets => list_wallets
  | .get_balance w t i => get_balance w t i
  | .get_gas_price n => get_gas_price n
  | .shield_tokens w t a r g => shield_tokens cfg w t a r g
  | .unshield_tokens w t a r g => unshield_tokens cfg w t a r g
  | .private_transfer w t a r g m => private_transfer cfg w t a r g m
  | .get_transaction_status t => get_transaction_status t
  | .get_transaction_history w l o t => get_transaction_history w l o t
  | .create_recipe n d nw s => create_recipe n d nw s
  | .estimate_recipe_gas r i => estimate_recipe_gas r i
  | .create_swap_recipe n s b d => create_swap_recipe n s b d
  | .get_relayers n => get_relayers n
  | .submit_to_relayer t r p => submit_to_relayer t r p
  | .create_wallet_batch c n p u => create_wallet_batch c n p u
  | .distribute_tokens s t ta d dt a => distribute_tokens cfg s t ta d dt a
  | .mix_tokens w t r d => mix_tokens w t r d
  | .just_send_money w toA a t k => just_send_money cfg w toA a t k
  | .verify_proof p => verify_proof p
  | .get_supported_tokens n => get_supported_tokens n

/-- Run one embedded tool handler under its `try`/`except` wrapper. -/
def toolRun (cfg : Config) (t : ToolCall) (sys : Sys) : PyVal × List Call :=
  runTool (toolBody cfg t) sys

/-- `v["success"]`-style lookup on an arbitrary value. -/
def dictLookupPy (v : PyVal) (k : String) : Option PyVal :=
  match v with
  | .dict kvs => dictLookup kvs k
  | _ => Option.none

/-- A well-shaped handler result: a dictionary with a boolean `success` entry,
and an `error` string entry whenever `success` is false. -/
def goodResult (v : PyVal) : Bool :=
  match dictLookupPy v "success" with
  | Option.some (.bool b) =>
    if b then true
    else
      match dictLookupPy v "error" with
      | Option.some (.str _) => true
      | _ => false
  | _ => false

/-- Whether a configured rpc-endpoint value passes the `check_config` display
expression without raising. -/
def rpcStrOk (v : PyVal) : Bool :=
  match rpcDisplayOne v with
  | .ok _ => true
  | .error _ => false

/-! ## Concrete scenario inputs used by the counterexamples and witnesses -/

/-- The default configuration: empty environment, no config file. -/
def cfgDefault : Config := Config.init [] .absent

/-- A handler environment where `get_api_client()` raises and every backend
request fails. -/
def sysDown : Sys :=
  ⟨false, fun _ => .error "backend down", fun _ _ => .ok 0, fun _ _ => "0.0"⟩

/-- A handler environment with a client available and every backend request
failing. -/
def sysUp : Sys :=
  ⟨true, fun _ => .error "backend down", fun _ _ => .ok 0, fun _ _ => "0.0"⟩

/-- Environment for the C1 scenario: the ethereum RPC URL is set in the
environment. -/
def envRpc : Env := [("ETHEREUM_RPC_URL", "https://env-rpc.example/v2/key")]

/-- Config file for the C1 scenario: the same setting is also present in the
file. -/
def fileRpc : FileState :=
  .parsed (.dict [("rpc_endpoints",
    .dict [("ethereum", .str "https://file-rpc.example/v2/key")])])

/-- Config file for the C5 counterexample: valid JSON whose `private_key`
merges first and whose `rpc_endpoints` entry then raises `TypeError` inside
the merge (`dict.update(5)`). -/
def filePartial : FileState :=
  .parsed (.dict [("private_key", .str "file-key"), ("rpc_endpoints", .int 5)])

/-- Configuration for the C3 counterexample: an environment-supplied RPC URL
containing exactly one slash, on which the `check_config` display expression
raises `IndexError`. -/
def cfgSlash : Config := Config.init [("ETHEREUM_RPC_URL", "a/b")] .absent

/-- A 201 backend response with a parseable JSON body, for the C4
counterexample. -/
def resp201 : HttpResponse := ⟨201, .ok (.dict [("ok", .bool true)]), "created"⟩

/-- A fresh client (C8 scenario). -/
def clientFresh : RailgunClient := ⟨"k", "fake-api-url", Option.none⟩

/-- The C8 double-open scenario: `__aenter__` twice from a fresh world. -/
def openOnce : RailgunClient × World := aenter clientFresh ⟨0, []⟩

/-- Second `__aenter__` on the already-open client. -/
def openTwice : RailgunClient × World := aenter openOnce.1 openOnce.2

/-- A handler body whose every normally-returned value is a well-shaped
result dictionary. -/
def okShape (body : Eff PyVal) : Prop :=
  ∀ sys v tr, body sys = (Except.ok v, tr) → goodResult v = true

/-! ## Helper lemmas -/

theorem goodResult_failDict (e : String) : goodResult (failDict e) = true := rfl

theorem runTool_good (body : Eff PyVal) (h : okShape body) (sys : Sys) :
    goodResult (runTool body sys).1 = true := by
  unfold runTool
  rcases hb : body sys with ⟨r, tr⟩
  cases r with
  | ok v => exact h sys v tr hb
  | error e => exact goodResult_failDict e

theorem okShape_bindCont {α : Type} (x : Eff α) (f : α → Eff PyVal)
    (h : ∀ a, okShape (f a)) : okShape (x >>= f) := by
  intro sys v tr hb
  have hb2 : Eff.bind x f sys = (Except.ok v, tr) := hb
  unfold Eff.bind at hb2
  rcases hx : x sys with ⟨r, tr1⟩
  rw [hx] at hb2
  cases r with
  | error e =>
    dsimp only at hb2
    simp at hb2
  | ok a =>
    dsimp only at hb2
    rcases hf : f a sys with ⟨r2, tr2⟩
    rw [hf] at hb2
    dsimp only at hb2
    have h1 : r2 = Except.ok v := congrArg Prod.fst hb2
    exact h a sys v tr2 (by rw [hf, h1])

theorem okShape_pure (d : PyVal) (h : goodResult d = true) : okShape (Eff.pure d) := by
  intro sys v tr hb
  have h1 : Except.ok (ε := String) d = Except.ok v := congrArg Prod.fst hb
  injection h1 with h2
  rw [← h2]
  exact h

theorem okShape_fail (e : String) : okShape (Eff.fail e) := by
  intro sys v tr hb
  simp [Eff.fail] at hb

theorem okShape_ite (c : Prop) [Decidable c] (e1 e2 : Eff PyVal)
    (h1 : okShape e1) (h2 : okShape e2) : okShape (if c then e1 else e2) := by
  by_cases hc : c
  · rwa [if_pos hc]
  · rwa [if_neg hc]

theorem okShape_create_wallet (cfg : Config) (n : String) (p : Option String) :
    okShape (create_wallet cfg n p) := by
  unfold create_wallet
  refine okShape_bindCont _ _ fun _ => ?_
  exact okShape_ite _ _ _
    (okShape_bindCont _ _ fun response =>
      okShape_bindCont _ _ fun wid =>
      okShape_bindCont _ _ fun a0x =>
      okShape_bindCont _ _ fun a0zk =>
      okShape_pure _ rfl)
    (okShape_pure _ rfl)

theorem okShape_import_wallet (cfg : Config) (pk n : String) (p : Option String) :
    okShape (import_wallet cfg pk n p) := by
  unfold import_wallet
  refine okShape_bindCont _ _ fun _ => ?_
  exact okShape_ite _ _ _
    (okShape_bindCont _ _ fun response =>
      okShape_bindCont _ _ fun wid =>
      okShape_bindCont _ _ fun a0x =>
      okShape_bindCont _ _ fun a0zk =>
      okShape_pure _ rfl)
    (okShape_pure _ rfl)

theorem okShape_list_wallets : okShape list_wallets := by
  unfold list_wallets
  exact okShape_bindCont _ _ fun _ =>
    okShape_bindCont _ _ fun response =>
    okShape_bindCont _ _ fun ws =>
    okShape_bindCont _ _ fun n =>
    okShape_pure _ rfl

theorem okShape_get_balance (w : String) (t : Option String) (i : Bool) :
    okShape (get_balance w t i) := by
  unfold get_balance
  exact okShape_bindCont _ _ fun _ =>
    okShape_bindCont _ _ fun response =>
    okShape_bindCont _ _ fun b =>
    okShape_pure _ rfl

theorem okShape_get_gas_price (n : String) : okShape (get_gas_price n) := by
  unfold get_gas_price
  exact okShape_bindCont _ _ fun _ =>
    okShape_bindCont _ _ fun response =>
    okShape_bindCont _ _ fun gp =>
    okShape_bindCont _ _ fun bf =>
    okShape_bindCont _ _ fun pf =>
    okShape_pure _ rfl

theorem okShape_shield_tokens (cfg : Config) (w t a : String) (r g : Option String) :
    okShape (shield_tokens cfg w t a r g) := by
  unfold shield_tokens
  exact okShape_bindCont _ _ fun _ =>
    okShape_bindCont _ _ fun response =>
    okShape_bindCont _ _ fun tid =>
    okShape_bindCont _ _ fun th =>
    okShape_bindCont _ _ fun st =>
    okShape_bindCont _ _ fun gu =>
    okShape_pure _ rfl

theorem okShape_unshield_tokens (cfg : Config) (w t a : String) (r g : Option String) :
    okShape (unshield_tokens cfg w t a r g) := by
  unfold unshield_tokens
  exact okShape_bindCont _ _ fun _ =>
    okShape_bindCont _ _ fun response =>
    okShape_bindCont _ _ fun tid =>
    okShape_bindCont _ _ fun th =>
    okShape_bindCont _ _ fun st =>
    okShape_bindCont _ _ fun gu =>
    okShape_pure _ rfl

theorem okShape_private_transfer (cfg : Config) (w t a r : String)
    (g m : Option String) : okShape (private_transfer cfg w t a r g m) := by
  unfold private_transfer
  exact okShape_bindCont _ _ fun _ =>
    okShape_bindCont _ _ fun response =>
    okShape_bindCont _ _ fun tid =>
    okShape_bindCont _ _ fun th =>
    okShape_bindCont _ _ fun st =>
    okShape_bindCont _ _ fun gu =>
    okShape_pure _ rfl

theorem okShape_get_transaction_status (t : String) :
    okShape (get_transaction_status t) := by
  unfold get_transaction_status
  exact okShape_bindCont _ _ fun _ =>
    okShape_bindCont _ _ fun response =>
    okShape_bindCont _ _ fun tx =>
    okShape_pure _ rfl

theorem okShape_get_transaction_history (w : String) (l o : Int)
    (t : Option String) : okShape (get_transaction_history w l o t) := by
  unfold get_transaction_history
  exact okShape_bindCont _ _ fun _ =>
    okShape_bindCont _ _ fun response =>
    okShape_bindCont _ _ fun txs =>
    okShape_bindCont _ _ fun total =>
    okShape_pure _ rfl

theorem okShape_create_recipe (n d nw : String) (s : PyVal) :
    okShape (create_recipe n d nw s) := by
  unfold create_recipe
  exact okShape_bindCont _ _ fun _ =>
    okShape_bindCont _ _ fun response =>
    okShape_bindCont _ _ fun rid =>
    okShape_pure _ rfl

theorem okShape_estimate_recipe_gas (r : String) (i : PyVal) :
    okShape (estimate_recipe_gas r i) := by
  unfold estimate_recipe_gas
  exact okShape_bindCont _ _ fun _ =>
    okShape_bindCont _ _ fun response =>
    okShape_bindCont _ _ fun eg =>
    okShape_bindCont _ _ fun gb =>
    okShape_bindCont _ _ fun ecw =>
    okShape_pure _ rfl

theorem okShape_create_swap_recipe (n s b d : String) :
    okShape (create_swap_recipe n s b d) := by
  unfold create_swap_recipe
  exact okShape_bindCont _ _ fun _ =>
    okShape_bindCont _ _ fun response =>
    okShape_bindCont _ _ fun rid =>
    okShape_bindCont _ _ fun rname =>
    okShape_bindCont _ _ fun steps =>
    okShape_pure _ rfl

theorem okShape_get_relayers (n : String) : okShape (get_relayers n) := by
  unfold get_relayers
  exact okShape_bindCont _ _ fun _ =>
    okShape_bindCont _ _ fun response =>
    okShape_bindCont _ _ fun rs =>
    okShape_bindCont _ _ fun cnt =>
    okShape_pure _ rfl

theorem okShape_submit_to_relayer (t r p : String) :
    okShape (submit_to_relayer t r p) := by
  unfold submit_to_relayer
  exact okShape_bindCont _ _ fun _ =>
    okShape_bindCont _ _ fun response =>
    okShape_bindCont _ _ fun rtid =>
    okShape_bindCont _ _ fun et =>
    okShape_bindCont _ _ fun fee =>
    okShape_pure _ rfl

theorem okShape_create_wallet_batch (c : Int) (n p : String) (u : Bool) :
    okShape (create_wallet_batch c n p u) := by
  unfold create_wallet_batch
  exact okShape_ite _ _ _
    (okShape_pure _ rfl)
    (okShape_bindCont _ _ fun _ =>
      okShape_bindCont _ _ fun ws =>
      okShape_pure _ rfl)

theorem okShape_distributeTransfers (cfg : Config) (s t ta : String)
    (d : List String) (a : Option (List String)) :
    okShape (distributeTransfers cfg s t ta d a) := by
  unfold distributeTransfers
  exact okShape_bindCont _ _ fun dests =>
    okShape_bindCont _ _ fun transfers =>
    okShape_pure _ rfl

theorem okShape_distribute_tokens (cfg : Config) (s t ta : String)
    (d : List String) (dt : String) (a : Option (List String)) :
    okShape (distribute_tokens cfg s t ta d dt a) := by
  unfold distribute_tokens
  refine okShape_bindCont _ _ fun _ => ?_
  refine okShape_ite _ _ _ ?_ ?_
  · refine okShape_bindCont _ _ fun n => ?_
    exact okShape_ite _ _ _ (okShape_fail _) (okShape_distributeTransfers _ _ _ _ _ _)
  · exact okShape_ite _ _ _ (okShape_pure _ rfl) (okShape_distributeTransfers _ _ _ _ _ _)

theorem okShape_mix_tokens (w : List String) (t : String) (r d : Int) :
    okShape (mix_tokens w t r d) := by
  unfold mix_tokens
  exact okShape_bindCont _ _ fun _ => okShape_pure _ rfl

theorem okShape_just_send_money (cfg : Config) (w toA a t : String) (k : Bool) :
    okShape (just_send_money cfg w toA a t k) := by
  unfold just_send_money
  refine okShape_bindCont _ _ fun _ => ?_
  refine okShape_bindCont _ _ fun p => ?_
  refine okShape_bindCont _ _ fun wei => ?_
  refine okShape_ite _ _ _ ?_ (okShape_fail _)
  refine okShape_bindCont _ _ fun balances => ?_
  refine okShape_bindCont _ _ fun bb => ?_
  refine okShape_bindCont _ _ fun bpriv => ?_
  refine okShape_bindCont _ _ fun pbv => ?_
  refine okShape_bindCont _ _ fun pb => ?_
  refine okShape_ite _ _ _ ?_ ?_
  · refine okShape_bindCont _ _ fun shield_response => ?_
    refine okShape_bindCont _ _ fun d => ?_
    refine okShape_bindCont _ _ fun shown => ?_
    refine okShape_bindCont _ _ fun steps1 => ?_
    refine okShape_bindCont _ _ fun transfer_response => ?_
    refine okShape_bindCont _ _ fun th => ?_
    exact okShape_pure _ rfl
  · refine okShape_bindCont _ _ fun steps1 => ?_
    refine okShape_bindCont _ _ fun transfer_response => ?_
    refine okShape_bindCont _ _ fun th => ?_
    exact okShape_pure _ rfl

theorem okShape_verify_proof (p : String) : okShape (verify_proof p) := by
  unfold verify_proof
  exact okShape_bindCont _ _ fun _ =>
    okShape_bindCont _ _ fun response =>
    okShape_bindCont _ _ fun valid =>
    okShape_bindCont _ _ fun pt =>
    okShape_bindCont _ _ fun va =>
    okShape_pure _ rfl

theorem okShape_get_supported_tokens (n : String) :
    okShape (get_supported_tokens n) := by
  unfold get_supported_tokens
  exact okShape_bindCont _ _ fun _ =>
    okShape_bindCont _ _ fun response =>
    okShape_bindCont _ _ fun toks =>
    okShape_bindCont _ _ fun cnt =>
    okShape_pure _ rfl

theorem okShape_toolBody (cfg : Config) (t : ToolCall) : okShape (toolBody cfg t) := by
  cases t with
  | create_wallet n p => exact okShape_create_wallet cfg n p
  | import_wallet pk n p => exact okShape_import_wallet cfg pk n p
  | list_wallets => exact okShape_list_wallets
  | get_balance w tk i => exact okShape_get_balance w tk i
  | get_gas_price n => exact okShape_get_gas_price n
  | shield_tokens w tk a r g => exact okShape_shield_tokens cfg w tk a r g
  | unshield_tokens w tk a r g => exact okShape_unshield_tokens cfg w tk a r g
  | private_transfer w tk a r g m => exact okShape_private_transfer cfg w tk a r g m
  | get_transaction_status tx => exact okShape_get_transaction_status tx
  | get_transaction_history w l o tt => exact okShape_get_transaction_history w l o tt
  | create_recipe n d nw s => exact okShape_create_recipe n d nw s
  | estimate_recipe_gas r i => exact okShape_estimate_recipe_gas r i
  | create_swap_recipe n s b d => exact okShape_create_swap_recipe n s b d
  | get_relayers n => exact okShape_get_relayers n
  | submit_to_relayer td r p => exact okShape_submit_to_relayer td r p
  | create_wallet_batch c n p u => exact okShape_create_wallet_batch c n p u
  | distribute_tokens s tk ta d dt a => exact okShape_distribute_tokens cfg s tk ta d dt a
  | mix_tokens w tk r d => exact okShape_mix_tokens w tk r d
  | just_send_money w toA a tk k => exact okShape_just_send_money cfg w toA a tk k
  | verify_proof p => exact okShape_verify_proof p
  | get_supported_tokens n => exact okShape_get_supported_tokens n

theorem acquireClient_fail (sys : Sys) (h : sys.clientAvailable = false) :
    acquireClient sys =
      (Except.error "⚠️  RAILGUN_PRIVATE_KEY not configured. This server needs a complete rewrite - see ARCHITECTURE_UPDATE.md",
       [Call.acquireClient]) := by
  unfold acquireClient
  rw [h]
  rfl

theorem runTool_acquireFirst (k : Unit → Eff PyVal) (sys : Sys)
    (h : sys.clientAvailable = false) :
    runTool (acquireClient >>= k) sys =
      (failDict "⚠️  RAILGUN_PRIVATE_KEY not configured. This server needs a complete rewrite - see ARCHITECTURE_UPDATE.md",
       [Call.acquireClient]) := by
  have h1 := acquireClient_fail sys h
  show runTool (Eff.bind acquireClient k) sys = _
  unfold runTool Eff.bind
  rw [h1]

theorem toolRun_noClient (cfg : Config) (t : ToolCall) (sys : Sys)
    (h : sys.clientAvailable = false) :
    dictLookupPy (toolRun cfg t sys).1 "success" = Option.some (PyVal.bool false) := by
  cases t with
  | create_wallet n p =>
    show dictLookupPy (runTool (create_wallet cfg n p) sys).1 "success" = _
    unfold create_wallet
    rw [runTool_acquireFirst _ sys h]
    rfl
  | import_wallet pk n p =>
    show dictLookupPy (runTool (import_wallet cfg pk n p) sys).1 "success" = _
    unfold import_wallet
    rw [runTool_acquireFirst _ sys h]
    rfl
  | list_wallets =>
    show dictLookupPy (runTool (list_wallets) sys).1 "success" = _
    unfold list_wallets
    rw [runTool_acquireFirst _ sys h]
    rfl
  | get_balance w tk i =>
    show dictLookupPy (runTool (get_balance w tk i) sys).1 "success" = _
    unfold get_balance
    rw [runTool_acquireFirst _ sys h]
    rfl
  | get_gas_price n =>
    show dictLookupPy (runTool (get_gas_price n) sys).1 "success" = _
    unfold get_gas_price
    rw [runTool_acquireFirst _ sys h]
    rfl
  | shield_tokens w tk a r g =>
    show dictLookupPy (runTool (shield_tokens cfg w tk a r g) sys).1 "success" = _
    unfold shield_tokens
    rw [runTool_acquireFirst _ sys h]
    rfl
  | unshield_tokens w tk a r g =>
    show dictLookupPy (runTool (unshield_tokens cfg w tk a r g) sys).1 "success" = _
    unfold unshield_tokens
    rw [runTool_acquireFirst _ sys h]
    rfl
  | private_transfer w tk a r g m =>
    show dictLookupPy (runTool (private_transfer cfg w tk a r g m) sys).1 "success" = _
    unfold private_transfer
    rw [runTool_acquireFirst _ sys h]
    rfl
  | get_transaction_status tx =>
    show dictLookupPy (runTool (get_transaction_status tx) sys).1 "success" = _
    unfold get_transaction_status
    rw [runTool_acquireFirst _ sys h]
    rfl
  | get_transaction_history w l o tt =>
    show dictLookupPy (runTool (get_transaction_history w l o tt) sys).1 "success" = _
    unfold get_transaction_history
    rw [runTool_acquireFirst _ sys h]
    rfl
  | create_recipe n d nw s =>
    show dictLookupPy (runTool (create_recipe n d nw s) sys).1 "success" = _
    unfold create_recipe
    rw [runTool_acquireFirst _ sys h]
    rfl
  | estimate_recipe_gas r i =>
    show dictLookupPy (runTool (estimate_recipe_gas r i) sys).1 "success" = _
    unfold estimate_recipe_gas
    rw [runTool_acquireFirst _ sys h]
    rfl
  | create_swap_recipe n s b d =>
    show dictLookupPy (runTool (create_swap_recipe n s b d) sys).1 "success" = _
    unfold create_swap_recipe
    rw [runTool_acquireFirst _ sys h]
    rfl
  | get_relayers n =>
    show dictLookupPy (runTool (get_relayers n) sys).1 "success" = _
    unfold get_relayers
    rw [runTool_acquireFirst _ sys h]
    rfl
  | submit_to_relayer td r p =>
    show dictLookupPy (runTool (submit_to_relayer td r p) sys).1 "success" = _
    unfold submit_to_relayer
    rw [runTool_acquireFirst _ sys h]
    rfl
  | create_wallet_batch c n p u =>
    show dictLookupPy (runTool (create_wallet_batch c n p u) sys).1 "success" = _
    unfold create_wallet_batch
    by_cases hc : c > 10
    · rw [if_pos hc]
      rfl
    · rw [if_neg hc]
      rw [runTool_acquireFirst _ sys h]
      rfl
  | distribute_tokens s tk ta d dt a =>
    show dictLookupPy (runTool (distribute_tokens cfg s tk ta d dt a) sys).1 "success" = _
    unfold distribute_tokens
    rw [runTool_acquireFirst _ sys h]
    rfl
  | mix_tokens w tk r d =>
    show dictLookupPy (runTool (mix_tokens w tk r d) sys).1 "success" = _
    unfold mix_tokens
    rw [runTool_acquireFirst _ sys h]
    rfl
  | just_send_money w toA a tk k =>
    show dictLookupPy (runTool (just_send_money cfg w toA a tk k) sys).1 "success" = _
    unfold just_send_money
    rw [runTool_acquireFirst _ sys h]
    rfl
  | verify_proof p =>
    show dictLookupPy (runTool (verify_proof p) sys).1 "success" = _
    unfold verify_proof
    rw [runTool_acquireFirst _ sys h]
    rfl
  | get_supported_tokens n =>
    show dictLookupPy (runTool (get_supported_tokens n) sys).1 "success" = _
    unfold get_supported_tokens
    rw [runTool_acquireFirst _ sys h]
    rfl

theorem rpcDisplayMap_ok (l : List (String × PyVal))
    (h : l.all (fun kv => rpcStrOk kv.2) = true) :
    ∃ l2, rpcDisplayMap l = Except.ok l2 := by
  induction l with
  | nil => exact ⟨[], rfl⟩
  | cons kv rest ih =>
    obtain ⟨k, v⟩ := kv
    rw [List.all_cons, Bool.and_eq_true] at h
    obtain ⟨l2, hl2⟩ := ih h.2
    have h1 := h.1
    unfold rpcStrOk at h1
    cases hd : rpcDisplayOne v with
    | error e =>
      rw [hd] at h1
      simp at h1
    | ok v2 =>
      refine ⟨(k, v2) :: l2, ?_⟩
      unfold rpcDisplayMap
      rw [hd, hl2]

theorem check_config_ok (cfg : Config)
    (h : cfg.rpc_endpoints.all (fun kv => rpcStrOk kv.2) = true) :
    ∃ d, check_config cfg = Except.ok d
      ∧ dictLookupPy d "success" = Option.some (PyVal.bool true) := by
  obtain ⟨l2, hl2⟩ := rpcDisplayMap_ok _ h
  unfold check_config
  rw [hl2]
  exact ⟨_, rfl, rfl⟩

theorem Eff_bind_ok {α β : Type} (x : Eff α) (f : α → Eff β) (sys : Sys) (a : α)
    (tr : List Call) (hx : x sys = (Except.ok a, tr)) :
    (x >>= f) sys = ((f a sys).1, tr ++ (f a sys).2) := by
  show Eff.bind x f sys = _
  unfold Eff.bind
  rw [hx]

theorem Eff_bind_error {α β : Type} (x : Eff α) (f : α → Eff β) (sys : Sys) (e : String)
    (tr : List Call) (hx : x sys = (Except.error e, tr)) :
    (x >>= f) sys = (Except.error e, tr) := by
  show Eff.bind x f sys = _
  unfold Eff.bind
  rw [hx]

theorem runTool_eq_ok (body : Eff PyVal) (sys : Sys) (v : PyVal) (tr : List Call)
    (h : body sys = (Except.ok v, tr)) : runTool body sys = (v, tr) := by
  unfold runTool
  rw [h]

theorem runTool_eq_error (body : Eff PyVal) (sys : Sys) (e : String) (tr : List Call)
    (h : body sys = (Except.error e, tr)) : runTool body sys = (failDict e, tr) := by
  unfold runTool
  rw [h]

theorem acquireClient_ok (sys : Sys) (h : sys.clientAvailable = true) :
    acquireClient sys = (Except.ok (), [Call.acquireClient]) := by
  unfold acquireClient
  rw [h]
  rfl

/-! ## Claim theorems -/

/-- C1: the claim states the environment value wins over the config-file value
for every setting, in particular for each per-network RPC URL.  The code
violates this for `rpc_endpoints`: `Config.__init__` applies
`self.rpc_endpoints.update(config_data.get("rpc_endpoints", {}))`, so at the
failing input — `ETHEREUM_RPC_URL` set in the environment and
`rpc_endpoints.ethereum` also present in the file — the loaded value is the
file value, not the environment value. -/
theorem C1_file_overrides_env_rpc :
    Config.get_rpc_url (Config.init envRpc fileRpc) "ethereum"
        = PyVal.str "https://file-rpc.example/v2/key"
    ∧ Config.get_rpc_url (Config.init envRpc fileRpc) "ethereum"
        ≠ PyVal.str "https://env-rpc.example/v2/key" := by
  refine ⟨rfl, fun hc => ?_⟩
  injection hc with h2
  exact absurd h2 (by decide)

/-- C2: the claim (and `test_config.py`) expects an `api_key` field loaded
from `RAILGUN_API_KEY` and a `railgun_api_url` field with default
`https://api.railgun.org/v1`.  The `Config` class in `models.py` has neither
attribute and never reads `RAILGUN_API_KEY`: constructing the settings with
`RAILGUN_API_KEY=abc` yields exactly the same object as with an empty
environment, and the only credential field, `private_key` (from
`RAILGUN_PRIVATE_KEY`), stays `None`. -/
theorem C2_api_key_env_ignored :
    Config.init [("RAILGUN_API_KEY", "abc")] FileState.absent
        = Config.init [] FileState.absent
    ∧ (Config.init [("RAILGUN_API_KEY", "abc")] FileState.absent).private_key
        = PyVal.none := ⟨rfl, rfl⟩

/-- C3 counterexample: `check_config` is a tool handler with no `try`/`except`
wrapper; with `ETHEREUM_RPC_URL=a/b` its rpc-endpoints display expression
`v.split("/")[2]` raises `IndexError`, so an exception escapes the handler and
no success dictionary is returned — refuting the claim as stated for this
handler and input. -/
theorem C3_check_config_raises :
    check_config cfgSlash = Except.error "IndexError: list index out of range" := by rfl

/-- C3 amended: every embedded tool handler that uses the `try`/`except`
wrapper returns a dictionary with a boolean `success` entry and an `error`
string whenever `success` is false (for every backend behaviour and
configuration); when client acquisition fails, the result is the uniform
failure dictionary; `check_config`, which lacks the wrapper, returns a
success dictionary provided every configured RPC-endpoint value passes its
display expression (otherwise it may raise, as the counterexample shows). -/
theorem C3_handlers_uniform_success :
    (∀ (cfg : Config) (t : ToolCall) (sys : Sys), goodResult (toolRun cfg t sys).1 = true)
    ∧ (∀ (cfg : Config) (t : ToolCall) (sys : Sys), sys.clientAvailable = false →
        dictLookupPy (toolRun cfg t sys).1 "success" = Option.some (PyVal.bool false))
    ∧ (∀ cfg : Config, cfg.rpc_endpoints.all (fun kv => rpcStrOk kv.2) = true →
        ∃ d, check_config cfg = Except.ok d
          ∧ dictLookupPy d "success" = Option.some (PyVal.bool true)) :=
  ⟨fun cfg t sys => runTool_good _ (okShape_toolBody cfg t) sys,
   fun cfg t sys h => toolRun_noClient cfg t sys h,
   fun cfg h => check_config_ok cfg h⟩

/-- C3 witness: the amended theorem applied at concrete inputs — the
`list_wallets` handler against an unavailable client, and `check_config` on
the default configuration. -/
theorem C3_handlers_uniform_success_witness :
    goodResult (toolRun cfgDefault ToolCall.list_wallets sysDown).1 = true
    ∧ dictLookupPy (toolRun cfgDefault ToolCall.list_wallets sysDown).1 "success"
        = Option.some (PyVal.bool false)
    ∧ ∃ d, check_config cfgDefault = Except.ok d
        ∧ dictLookupPy d "success" = Option.some (PyVal.bool true) :=
  ⟨C3_handlers_uniform_success.1 cfgDefault ToolCall.list_wallets sysDown,
   C3_handlers_uniform_success.2.1 cfgDefault ToolCall.list_wallets sysDown rfl,
   C3_handlers_uniform_success.2.2 cfgDefault (by rfl)⟩

/-- C4 counterexample: status 201 is a 2xx code, yet `RailgunAPIClient.get`
raises (its check is `status == 200`, not any 2xx), refuting the claim that
any 2xx status returns the parsed JSON body. -/
theorem C4_get_rejects_201 :
    (200 ≤ resp201.status ∧ resp201.status ≤ 299)
    ∧ RailgunAPIClient.get resp201 = Except.error "API request failed: 201 - created"
    ∧ RailgunAPIClient.get resp201 ≠ resp201.jsonBody := by
  refine ⟨⟨by decide, by decide⟩, rfl, fun hc => ?_⟩
  exact Except.noConfusion hc

/-- C4 amended: `get` returns the parsed JSON body exactly when the status is
200, and `post` exactly when it is 200 or 201; every other status (including
the remaining 2xx codes) raises an error carrying the status code and the raw
response body text. -/
theorem C4_status_dispatch (r : HttpResponse) :
    (r.status = 200 → RailgunAPIClient.get r = r.jsonBody)
    ∧ (r.status ≠ 200 →
        RailgunAPIClient.get r
          = Except.error ("API request failed: " ++ toString r.status ++ " - " ++ r.textBody))
    ∧ (r.status = 200 ∨ r.status = 201 → RailgunAPIClient.post r = r.jsonBody)
    ∧ (r.status ≠ 200 → r.status ≠ 201 →
        RailgunAPIClient.post r
          = Except.error ("API request failed: " ++ toString r.status ++ " - " ++ r.textBody)) := by
  unfold RailgunAPIClient.get RailgunAPIClient.post
  exact ⟨fun h => if_pos h,
         fun h => if_neg h,
         fun h => if_pos h,
         fun h1 h2 => if_neg (fun hor => hor.elim h1 h2)⟩

/-- C4 witness: the amended dispatch theorem applied at statuses 200, 404,
201 and 500. -/
theorem C4_status_dispatch_witness :
    RailgunAPIClient.get ⟨200, Except.ok (PyVal.dict []), ""⟩ = Except.ok (PyVal.dict [])
    ∧ RailgunAPIClient.get ⟨404, Except.ok PyVal.none, "nope"⟩
        = Except.error "API request failed: 404 - nope"
    ∧ RailgunAPIClient.post ⟨201, Except.ok PyVal.none, ""⟩ = Except.ok PyVal.none
    ∧ RailgunAPIClient.post ⟨500, Except.ok PyVal.none, "boom"⟩
        = Except.error "API request failed: 500 - boom" :=
  ⟨(C4_status_dispatch ⟨200, Except.ok (PyVal.dict []), ""⟩).1 rfl,
   (C4_status_dispatch ⟨404, Except.ok PyVal.none, "nope"⟩).2.1 (by decide),
   (C4_status_dispatch ⟨201, Except.ok PyVal.none, ""⟩).2.2.1 (Or.inr rfl),
   (C4_status_dispatch ⟨500, Except.ok PyVal.none, "boom"⟩).2.2.2 (by decide) (by decide)⟩

/-- C5 counterexample: a config file holding valid JSON whose `private_key`
merges before its malformed `rpc_endpoints` entry (`5`) raises `TypeError`
inside the merge.  The exception is swallowed, but `private_key` keeps the
file value, so the resulting settings differ from the environment-only
outcome (`private_key = None`) — refuting the claim for the
"any other exception while reading" failure mode. -/
theorem C5_partial_merge_keeps_file_value :
    (Config.init [] filePartial).private_key = PyVal.str "file-key"
    ∧ (Config.init [] FileState.absent).private_key = PyVal.none := ⟨rfl, rfl⟩

/-- C5 amended: construction never raises (the loader is a total function of
the environment and file state), and when the config file is absent,
unreadable, or contains JSON that fails to parse, every field equals the
environment-only outcome.  (When the file parses but an exception occurs
midway through the merge, fields already merged keep their file-derived
values, as the counterexample shows.) -/
theorem C5_loader_failure_env_only (env : Env) :
    Config.init env FileState.unreadable = Config.init env FileState.absent
    ∧ Config.init env FileState.malformed = Config.init env FileState.absent :=
  ⟨rfl, rfl⟩

/-- C6: equal-distribution splitting in `distribute_tokens` over a positive
integer total and a non-empty destination list produces exactly N amounts,
each the floor of total divided by N, and their sum never exceeds the
original total (the remainder is dropped). -/
theorem C6_equal_split (total : Int) (dests : List String)
    (h1 : 0 < total) (h2 : dests ≠ []) :
    (equal_distribution total dests.length).length = dests.length
    ∧ (∀ a ∈ equal_distribution total dests.length,
        a = Int.fdiv total (dests.length : Int))
    ∧ (equal_distribution total dests.length).sum ≤ total := by
  have hn : dests.length ≠ 0 := fun h => h2 (List.eq_nil_of_length_eq_zero h)
  have hnz : (dests.length : Int) ≠ 0 := by simpa using hn
  refine ⟨List.length_replicate _ _, ?_, ?_⟩
  · intro a ha
    exact List.eq_of_mem_replicate ha
  · unfold equal_distribution
    rw [List.sum_replicate, nsmul_eq_mul]
    rw [Int.fdiv_eq_ediv _ (Int.natCast_nonneg _)]
    calc (dests.length : Int) * (total / dests.length)
        = total / dests.length * dests.length := by ring
      _ ≤ total := Int.ediv_mul_le total hnz

/-- C6 witness: the split theorem applied to total 7 over three wallets
(7 // 3 = 2 each, sum 6 ≤ 7). -/
theorem C6_equal_split_witness :
    (equal_distribution 7 (["w1", "w2", "w3"] : List String).length).length
        = (["w1", "w2", "w3"] : List String).length
    ∧ (∀ a ∈ equal_distribution 7 (["w1", "w2", "w3"] : List String).length,
        a = Int.fdiv 7 ((["w1", "w2", "w3"] : List String).length : Int))
    ∧ (equal_distribution 7 (["w1", "w2", "w3"] : List String).length).sum ≤ 7 :=
  C6_equal_split 7 ["w1", "w2", "w3"] (by decide) (by decide)

/-- C7: for any requested count greater than 10, `create_wallet_batch`
returns the failure dictionary `Maximum 10 wallets per batch` with an empty
interaction trace: no client acquisition and no backend request happens
before the rejection. -/
theorem C7_batch_limit (cfg : Config) (sys : Sys) (count : Int)
    (network password_prefix : String) (use_unique_passwords : Bool)
    (h : count > 10) :
    toolRun cfg (ToolCall.create_wallet_batch count network password_prefix use_unique_passwords) sys
      = (failDict "Maximum 10 wallets per batch", []) := by
  show runTool (create_wallet_batch count network password_prefix use_unique_passwords) sys = _
  unfold create_wallet_batch
  rw [if_pos h]
  rfl

/-- C7 witness: the limit theorem applied at count 11. -/
theorem C7_batch_limit_witness :
    toolRun cfgDefault (ToolCall.create_wallet_batch 11 "ethereum" "pw" true) sysUp
      = (failDict "Maximum 10 wallets per batch", []) :=
  C7_batch_limit cfgDefault sysUp 11 "ethereum" "pw" true (by decide)

/-- C8 counterexample: calling `__aenter__` a second time on an already-open
client leaves two live sessions, not one — the first session is replaced in
`self.session` without being closed. -/
theorem C8_double_open_two_sessions :
    openTwice.2.openSessions.length = 2
    ∧ openTwice.2.openSessions.length ≠ 1 :=
  ⟨rfl, by decide⟩

/-- C8 amended: `__aenter__` always creates one fresh session carrying the
bearer-token header derived from the configured credential and stores it in
`self.session`; a second `__aenter__` on an open client leaks the previous
session (two more live sessions than before, not one); closing is idempotent:
`__aexit__` twice equals `__aexit__` once, `cleanup_api_client` with no global
client is a no-op, and `__aexit__` with no session leaves the world
unchanged. -/
theorem C8_session_lifecycle :
    (∀ (c : RailgunClient) (w : World),
       (aenter c w).2.openSessions
           = w.openSessions ++ [⟨w.nextId, "Bearer " ++ c.api_key⟩]
       ∧ (aenter c w).1.session = Option.some w.nextId)
    ∧ (∀ (c : RailgunClient) (w : World),
       ((aenter (aenter c w).1 (aenter c w).2).2.openSessions).length
         = w.openSessions.length + 2)
    ∧ (∀ (c : RailgunClient) (w : World), aexit c (aexit c w) = aexit c w)
    ∧ (∀ w : World, cleanup_api_client Option.none w = (Option.none, w))
    ∧ (∀ (c : RailgunClient) (w : World), c.session = Option.none → aexit c w = w) := by
  refine ⟨fun c w => ⟨rfl, rfl⟩, fun c w => ?_, fun c w => ?_, fun w => rfl, fun c w h => ?_⟩
  · simp [aenter]
  · obtain ⟨ak, au, s⟩ := c
    cases s with
    | none => rfl
    | some i =>
      show sessionClose (sessionClose w i) i = sessionClose w i
      unfold sessionClose
      simp [List.filter_filter]
  · unfold aexit
    rw [h]

/-- C8 witness: the lifecycle theorem applied to a fresh (sessionless) client
and to the once-opened client. -/
theorem C8_session_lifecycle_witness :
    aexit clientFresh ⟨5, []⟩ = ⟨5, []⟩
    ∧ aexit openOnce.1 (aexit openOnce.1 openOnce.2) = aexit openOnce.1 openOnce.2 :=
  ⟨C8_session_lifecycle.2.2.2.2 clientFresh ⟨5, []⟩ rfl,
   C8_session_lifecycle.2.2.1 openOnce.1 openOnce.2⟩

/-- C9: `just_send_money` with `keep_private=False` always returns a failure
dictionary (success false with an error string) and performs no backend
request beyond client acquisition, whatever the other arguments and the
backend behaviour: every path either raises before the public-send branch or
reaches the unassigned `transfer_response` read, and the wrapper converts the
exception into the failure dictionary. -/
theorem C9_public_send_always_fails (cfg : Config) (sys : Sys)
    (wallet_id toAddr amount token : String) :
    dictLookupPy (toolRun cfg (ToolCall.just_send_money wallet_id toAddr amount token false) sys).1 "success"
        = Option.some (PyVal.bool false)
    ∧ (∃ e, dictLookupPy (toolRun cfg (ToolCall.just_send_money wallet_id toAddr amount token false) sys).1 "error"
        = Option.some (PyVal.str e))
    ∧ (toolRun cfg (ToolCall.just_send_money wallet_id toAddr amount token false) sys).2
        = [Call.acquireClient] := by
  have hbody : ∃ e, just_send_money cfg wallet_id toAddr amount token false sys
      = (Except.error e, [Call.acquireClient]) := by
    unfold just_send_money
    cases hA : sys.clientAvailable with
    | false =>
      exact ⟨_, Eff_bind_error _ _ _ _ _ (acquireClient_fail sys hA)⟩
    | true =>
      rw [Eff_bind_ok _ _ _ _ _ (acquireClient_ok sys hA)]
      dsimp only
      cases hp : parseAmountToken amount token with
      | error e =>
        rw [Eff_bind_error _ _ _ _ _
          (show liftE (Except.error (α := String × String) e) sys = (Except.error e, []) from rfl)]
        exact ⟨e, rfl⟩
      | ok p =>
        rw [Eff_bind_ok _ _ _ _ _
          (show liftE (Except.ok (ε := String) p) sys = (Except.ok p, []) from rfl)]
        dsimp only
        cases hw : sys.amountToWei p.1 ((List.lookup p.2 decimalsMap).getD 18) with
        | error e =>
          have hm : amountToWeiEff p.1 ((List.lookup p.2 decimalsMap).getD 18) sys
              = (Except.error e, []) := by
            unfold amountToWeiEff; rw [hw]
          rw [Eff_bind_error _ _ _ _ _ hm]
          exact ⟨e, rfl⟩
        | ok wei =>
          have hm : amountToWeiEff p.1 ((List.lookup p.2 decimalsMap).getD 18) sys
              = (Except.ok wei, []) := by
            unfold amountToWeiEff; rw [hw]
          rw [Eff_bind_ok _ _ _ _ _ hm]
          dsimp only
          exact ⟨_, rfl⟩
  obtain ⟨e, hbody⟩ := hbody
  have hrun := runTool_eq_error _ _ _ _ hbody
  show dictLookupPy (runTool (just_send_money cfg wallet_id toAddr amount token false) sys).1 "success" = _
    ∧ (∃ e2, dictLookupPy (runTool (just_send_money cfg wallet_id toAddr amount token false) sys).1 "error"
        = Option.some (PyVal.str e2))
    ∧ (runTool (just_send_money cfg wallet_id toAddr amount token false) sys).2 = [Call.acquireClient]
  rw [hrun]
  exact ⟨rfl, ⟨e, rfl⟩, rfl⟩

/-- C10: whenever the API client is available, `mix_tokens` performs exactly
the client acquisition and no backend request, and returns the fixed success
dictionary whose `estimated_time` is `mixing_rounds * delay_seconds *
len(wallet_ids)`. -/
theorem C10_mix_no_requests (cfg : Config) (sys : Sys) (wallet_ids : List String)
    (token_address : String) (mixing_rounds delay_seconds : Int)
    (h : sys.clientAvailable = true) :
    toolRun cfg (ToolCall.mix_tokens wallet_ids token_address mixing_rounds delay_seconds) sys
      = (PyVal.dict [("success", PyVal.bool true),
          ("message", PyVal.str "Token mixing initiated"),
          ("wallets", PyVal.int wallet_ids.length),
          ("rounds", PyVal.int mixing_rounds),
          ("estimated_time", PyVal.int (mixing_rounds * delay_seconds * wallet_ids.length))],
         [Call.acquireClient]) := by
  show runTool (mix_tokens wallet_ids token_address mixing_rounds delay_seconds) sys = _
  refine runTool_eq_ok _ _ _ _ ?_
  unfold mix_tokens
  rw [Eff_bind_ok _ _ _ _ _ (acquireClient_ok sys h)]
  simp [Eff.pure]

/-- C10 witness: the theorem applied to two wallets, 3 rounds, 30-second
delay — estimated time 180. -/
theorem C10_mix_no_requests_witness :
    toolRun cfgDefault (ToolCall.mix_tokens ["w1", "w2"] "0xToken" 3 30) sysUp
      = (PyVal.dict [("success", PyVal.bool true),
          ("message", PyVal.str "Token mixing initiated"),
          ("wallets", PyVal.int 2),
          ("rounds", PyVal.int 3),
          ("estimated_time", PyVal.int 180)],
         [Call.acquireClient]) :=
  C10_mix_no_requests cfgDefault sysUp ["w1", "w2"] "0xToken" 3 30 rfl
